import Mathlib

/-!
Verification of the caching and task-retry core of the Django blog
repository: the cache key policy, the read-through cache layer on the
post list / user list / post detail views, the write-invalidation
signal receivers, the Celery retry wrapper and the periodic reminder
sweep, shallowly embedded from the Python source (blog/signals.py,
blog/views.py, blog/tasks.py, users/signals.py, users/tasks.py).
-/

set_option autoImplicit false

namespace DjangoBlog

/-! ## Cache store model

The external cache backend consumed by the code (django.core.cache):
an association list of key, value and TTL, with get / set(ttl) /
delete (delete returns whether the key existed, as Django's
cache.delete does). -/

abbrev Store (α : Type) := List (String × α × Nat)

def Store.get {α : Type} : Store α → String → Option α
  | [], _ => none
  | (k, v, _) :: rest, key => if k = key then some v else Store.get rest key

def Store.eraseKey {α : Type} (s : Store α) (key : String) : Store α :=
  s.filter (fun e => e.1 != key)

def Store.set {α : Type} (s : Store α) (key : String) (v : α) (ttl : Nat) : Store α :=
  (key, v, ttl) :: s.eraseKey key

def Store.delete {α : Type} (s : Store α) (key : String) : Bool × Store α :=
  (s.any (fun e => e.1 == key), s.eraseKey key)

/-! ## Decimal rendering of numeric ids

Python f-strings interpolate integer primary keys in decimal; the
cache keys in the source are built that way. The renderer is embedded
with structural (fuel) recursion so that closed instances reduce, and
it is proved injective for the key-collision claims. -/

def digitChar (d : Nat) : Char :=
  match d with
  | 0 => '0' | 1 => '1' | 2 => '2' | 3 => '3' | 4 => '4'
  | 5 => '5' | 6 => '6' | 7 => '7' | 8 => '8' | _ => '9'

def digitsRevAux : Nat → Nat → List Nat
  | 0, n => [n]
  | fuel + 1, n => if n < 10 then [n] else n % 10 :: digitsRevAux fuel (n / 10)

/-- Decimal digits of n, least significant first. -/
def digitsRev (n : Nat) : List Nat := digitsRevAux n n

def undigitsRev : List Nat → Nat
  | [] => 0
  | d :: ds => d + 10 * undigitsRev ds

/-- Decimal rendering of a natural number, as Python str() produces it. -/
def natRepr (n : Nat) : String := String.mk ((digitsRev n).reverse.map digitChar)

/-! ## Cache key policy

The key strings exactly as built in blog/views.py and
blog/signals.py. -/

def post_list_key : String := "post_list_view"

def user_posts_key (username : String) : String := "user_posts_" ++ username

def post_detail_key (pk : Nat) : String := "post_detail_" ++ natRepr pk

/-- The fourth key built by invalidate_post_cache in blog/signals.py,
which its comment calls Django's internal cache_page key format. -/
def cache_page_signal_key (pk : Nat) : String :=
  "post_detail.views.decorators.cache.cache_page.." ++ (natRepr pk ++ ".")

/-- The three cache identity scopes of the spec's Resource Identity. -/
inductive Identity where
  | globalList
  | userList (username : String)
  | detail (pk : Nat)
deriving DecidableEq

/-- keyFor maps an identity to the key string the views use for it. -/
def keyFor : Identity → String
  | .globalList => post_list_key
  | .userList u => user_posts_key u
  | .detail pk => post_detail_key pk

/-- The key list built by invalidate_post_cache (blog/signals.py lines
35-41), in source order. -/
def invalidation_keys (username : String) (pk : Nat) : List String :=
  [post_list_key, user_posts_key username, post_detail_key pk, cache_page_signal_key pk]

/-- Modelled from the spec, for comparison only: invalidationKeysFor
returns exactly the three keys global list, author list and post
detail. -/
def spec_invalidationKeysFor (username : String) (pk : Nat) : List String :=
  [post_list_key, user_posts_key username, post_detail_key pk]

/-- Key format of the cache_page machinery
(django.utils.cache._generate_cache_key, framework code outside this
repository): the key-prefix, HTTP method and the MD5 hexdigests of the
request URL and of the varying headers joined onto a fixed leading
component. The two hash components are carried as opaque strings; the
backend-level KEY_PREFIX/version wrapper applies uniformly to every
cache operation and is omitted. -/
def cache_page_generated_key (pfx method urlHash hdrHash : String) : String :=
  "views.decorators.cache.cache_page." ++
    (pfx ++ ("." ++ (method ++ ("." ++ (urlHash ++ ("." ++ hdrHash))))))

/-! ## Data model of the read paths -/

/-- The attributes of Post (blog/models.py) that the cache layer
consumes: primary key, author username, and the posting date used for
ordering. -/
structure PostRec where
  pk : Nat
  author : String
  datePosted : Nat
deriving DecidableEq, Repr

/-- Values held in the shared cache: pickled post lists from the two
list views, and rendered HTML pages from cache_page. -/
inductive CacheVal where
  | posts (items : List PostRec)
  | page (html : String)
deriving DecidableEq, Repr

abbrev BlogStore := Store CacheVal

/-- order_by descending on date_posted, as order_by with a minus sign
does (insertion sort, stable like the SQL ORDER BY for this model). -/
def insertByDate (p : PostRec) : List PostRec → List PostRec
  | [] => [p]
  | q :: rest =>
    if q.datePosted ≤ p.datePosted then p :: q :: rest else q :: insertByDate p rest

def order_by_date_desc : List PostRec → List PostRec
  | [] => []
  | p :: rest => insertByDate p (order_by_date_desc rest)

/-- Result of one view read: the value handed to the template, the
cache store afterwards, and how many times the database compute and
the cache write ran during the request. -/
structure ViewResult where
  value : CacheVal
  store : BlogStore
  computeCount : Nat
  writeCount : Nat
deriving Repr

/-- PostListView.get_queryset (blog/views.py): cache.get on the global
list key; on a non-None hit return the cached value unchanged; on a
miss run the ordered query, cache.set it with TTL 3600, return it. -/
def PostListView_get_queryset (db : List PostRec) (st : BlogStore) : ViewResult :=
  match Store.get st post_list_key with
  | some v => ⟨v, st, 0, 0⟩
  | none =>
    let posts := CacheVal.posts (order_by_date_desc db)
    ⟨posts, Store.set st post_list_key posts 3600, 1, 1⟩

/-- SameUserPostListView.get_queryset (blog/views.py): per-user key,
filter by author then order, cache.set with TTL 60 * 30. -/
def SameUserPostListView_get_queryset (db : List PostRec) (username : String)
    (st : BlogStore) : ViewResult :=
  match Store.get st (user_posts_key username) with
  | some v => ⟨v, st, 0, 0⟩
  | none =>
    let posts := CacheVal.posts
      (order_by_date_desc (db.filter (fun p => p.author == username)))
    ⟨posts, Store.set st (user_posts_key username) posts (60 * 30), 1, 1⟩

/-- PostDetailView dispatch (blog/views.py) under cache_page(60 * 60)
with key-prefix the string post_detail: a full-page read-through cache
of the rendered HTML, keyed by cache_page_generated_key. render stands
for the view rendering the post with the given pk. -/
def PostDetailView_dispatch (render : Nat → String) (pk : Nat)
    (urlHash hdrHash : String) (st : BlogStore) : ViewResult :=
  let key := cache_page_generated_key "post_detail" "GET" urlHash hdrHash
  match Store.get st key with
  | some v => ⟨v, st, 0, 0⟩
  | none =>
    let page := CacheVal.page (render pk)
    ⟨page, Store.set st key page (60 * 60), 1, 1⟩

/-- A concrete rendering function for closed evaluations. -/
def render_stub : Nat → String := fun pk => "rendered detail " ++ natRepr pk

/-! ## Write-invalidation trigger (blog/signals.py) -/

/-- A cache-store delete primitive as seen by the signal code: it may
raise (store unreachable), which an Except error models. -/
def DeleteOp (α : Type) : Type := Store α → String → Except String (Bool × Store α)

/-- The healthy backend: delete never raises, and on a missing key it
just reports False. -/
def normalDelete {α : Type} : DeleteOp α := fun s k => .ok (Store.delete s k)

/-- A backend whose delete always raises, for the unreachable-store
case. -/
def failingDelete : DeleteOp CacheVal := fun _ _ => .error "store unreachable"

/-- The list comprehension in invalidate_post_cache: delete each key in
order, collecting the keys whose delete returned True; an exception
from any delete aborts and propagates. -/
def delete_keys {α : Type} (del : DeleteOp α) :
    List String → Store α → Except String (List String × Store α)
  | [], st => .ok ([], st)
  | k :: ks, st =>
    match del st k with
    | .error e => .error e
    | .ok (removed, st') =>
      match delete_keys del ks st' with
      | .error e => .error e
      | .ok (rs, st'') => .ok (if removed then k :: rs else rs, st'')

/-- invalidate_post_cache (blog/signals.py): builds the four keys for
the post's pk and author username and deletes them, logging the ones
actually removed. No try/except here: a raising delete propagates. -/
def invalidate_post_cache {α : Type} (del : DeleteOp α) (username : String) (pk : Nat)
    (st : Store α) : Except String (List String × Store α) :=
  delete_keys del (invalidation_keys username pk) st

inductive LogEntry where
  | info (msg : String)
  | exception (msg : String)
deriving DecidableEq, Repr

/-- post_saved receiver (blog/signals.py): invalidate_post_cache under
try/except Exception — an error is logged, never re-raised, so the
receiver's own outcome is always ok. -/
def post_saved {α : Type} (del : DeleteOp α) (username : String) (pk : Nat)
    (st : Store α) : Except String (Store α × List LogEntry) :=
  match invalidate_post_cache del username pk st with
  | .ok (_, st') => .ok (st', [.info "cache invalidated"])
  | .error e => .ok (st, [.exception e])

/-- post_deleted receiver (blog/signals.py): identical guard around the
same invalidation. -/
def post_deleted {α : Type} (del : DeleteOp α) (username : String) (pk : Nat)
    (st : Store α) : Except String (Store α × List LogEntry) :=
  match invalidate_post_cache del username pk st with
  | .ok (_, st') => .ok (st', [.info "cache invalidated"])
  | .error e => .ok (st, [.exception e])

/-- The store left behind by a signal receiver (the receivers always
return ok; the default covers the impossible error branch). -/
def storeAfter (r : Except String (BlogStore × List LogEntry)) (dflt : BlogStore) : BlogStore :=
  match r with
  | .ok (st, _) => st
  | .error _ => dflt

/-! ## Retryable task wrapper

Celery shared_task with bind and max_retries, as used by
blog/tasks.py and users/tasks.py: the body runs at request.retries = r;
on failure it calls self.retry, which re-executes with r + 1 while
r < max_retries and otherwise raises through to a terminal task
failure (MaxRetriesExceededError / the original exception). -/

inductive Final where
  | Succeeded
  | FailedTerminal
deriving DecidableEq, Repr

/-- Drive one task to completion. op r tells whether the r-th execution
of the wrapped operation (the send_mail call) succeeds; budget is the
number of retries still allowed, maxRetries - r on entry. Returns the
total number of executions of the operation and the final state. -/
def celery_run_from (op : Nat → Bool) : Nat → Nat → Nat × Final
  | 0, r => if op r then (r + 1, .Succeeded) else (r + 1, .FailedTerminal)
  | budget + 1, r => if op r then (r + 1, .Succeeded) else celery_run_from op budget (r + 1)

/-- post_notifying_email (blog/tasks.py): max_retries is 3 and every
exception goes through self.retry; run it from a fresh enqueue. -/
def post_notifying_email_run (op : Nat → Bool) : Nat × Final :=
  celery_run_from op 3 0

/-- The exceptions process_profile_image (users/tasks.py)
distinguishes: User.DoesNotExist versus everything else. -/
inductive ImgExc where
  | userDoesNotExist
  | other (msg : String)
deriving DecidableEq, Repr

inductive TaskOutcome where
  | Succeeded
  | Retrying
  | FailedTerminal
deriving DecidableEq, Repr

/-- One execution of process_profile_image at request.retries = r with
the given max_retries: no exception succeeds; User.DoesNotExist is
re-raised bare (terminal task failure, no retry); any other exception
reaches self.retry, hence Retrying while r < maxRetries and a terminal
failure once the budget is exhausted. -/
def process_profile_image_outcome (exc : Option ImgExc) (r maxRetries : Nat) : TaskOutcome :=
  match exc with
  | none => .Succeeded
  | some .userDoesNotExist => .FailedTerminal
  | some (.other _) => if r < maxRetries then .Retrying else .FailedTerminal

/-! ## Periodic reminder sweep (send_blog_reminder, blog/tasks.py) -/

/-- The User attributes the sweep consumes: is_active and whether any
of the user's posts is newer than ten days (the exclude clause). -/
structure UserRec where
  username : String
  email : String
  is_active : Bool
  hasRecentPost : Bool
deriving DecidableEq, Repr

/-- The queryset of the sweep: active users minus those with a recent
post. -/
def inactive_users (users : List UserRec) : List UserRec :=
  users.filter (fun u => u.is_active && !u.hasRecentPost)

/-- The for-loop of the sweep: attempt every send; a failing send is
logged and the loop continues. Returns the attempted emails in order
and the failed ones. -/
def sweep_loop (sendOk : String → Bool) : List UserRec → List String × List String
  | [] => ([], [])
  | u :: rest =>
    let r := sweep_loop sendOk rest
    (u.email :: r.1, if sendOk u.email then r.2 else u.email :: r.2)

structure SweepResult where
  message : String
  attempted : List String
  failed : List String
deriving DecidableEq, Repr

/-- send_blog_reminder (blog/tasks.py): filter the inactive users;
return early when there are none; otherwise loop over all of them with
per-user exception isolation, then return a message quoting the count
of inactive users. -/
def send_blog_reminder (sendOk : String → Bool) (users : List UserRec) : SweepResult :=
  let inact := inactive_users users
  if inact.length = 0 then
    ⟨"No inactive users to remind", [], []⟩
  else
    ⟨"Sent reminders to " ++ (natRepr inact.length ++ " inactive users"),
      (sweep_loop sendOk inact).1, (sweep_loop sendOk inact).2⟩

/-- Five qualifying users for the concrete sweep runs. -/
def sweepUsers : List UserRec :=
  [⟨"u1", "e1", true, false⟩, ⟨"u2", "e2", true, false⟩, ⟨"u3", "e3", true, false⟩,
   ⟨"u4", "e4", true, false⟩, ⟨"u5", "e5", true, false⟩]

/-- A transport where exactly the third user's email send throws. -/
def sweepSendOk : String → Bool := fun e => e != "e3"

/-! ## Transaction/commit ordering of task scheduling -/

inductive TxOutcome where
  | commit
  | rollback
deriving DecidableEq, Repr

inductive Event where
  | enqueue (task : String)
  | dbWrite (what : String)
  | txEnd (outcome : TxOutcome)
deriving DecidableEq, Repr

/-- PostCreateView.form_valid (blog/views.py): the author is assigned,
post_notifying_email.delay is called immediately, and only then does
super().form_valid save the post; the transaction ends afterwards with
the given outcome. There is no transaction.on_commit around the delay
call. -/
def post_create_form_valid_events (tx : TxOutcome) : List Event :=
  [.enqueue "post_notifying_email", .dbWrite "post.save"] ++
    (match tx with
      | .commit => [.txEnd .commit]
      | .rollback => [.txEnd .rollback])

/-- create_profile (users/signals.py): the Profile row is written, and
send_welcome_email.delay is registered through transaction.on_commit,
so the enqueue happens only after a successful commit and never on
rollback. -/
def create_profile_events (tx : TxOutcome) : List Event :=
  [.dbWrite "profile.create"] ++
    (match tx with
      | .commit => [.txEnd .commit, .enqueue "send_welcome_email"]
      | .rollback => [.txEnd .rollback])

/-- The tasks handed to the queue in a trace. -/
def enqueued_tasks : List Event → List String
  | [] => []
  | .enqueue t :: rest => t :: enqueued_tasks rest
  | _ :: rest => enqueued_tasks rest

/-! ## Lemmas about the decimal renderer -/

theorem digitsRevAux_congr (n : Nat) : ∀ f₁ f₂ : Nat, n ≤ f₁ → n ≤ f₂ →
    digitsRevAux f₁ n = digitsRevAux f₂ n := by
  induction n using Nat.strong_induction_on with
  | _ n ih =>
    intro f₁ f₂ h₁ h₂
    match f₁, f₂ with
    | 0, 0 => rfl
    | 0, g + 1 =>
      have hn : n = 0 := by omega
      subst hn
      simp [digitsRevAux]
    | g + 1, 0 =>
      have hn : n = 0 := by omega
      subst hn
      simp [digitsRevAux]
    | g₁ + 1, g₂ + 1 =>
      by_cases h10 : n < 10
      · simp [digitsRevAux, h10]
      · have hlt : n / 10 < n := Nat.div_lt_self (by omega) (by omega)
        simp only [digitsRevAux, if_neg h10]
        rw [ih (n / 10) hlt g₁ g₂ (by omega) (by omega)]

theorem digitsRev_eq (n : Nat) :
    digitsRev n = if n < 10 then [n] else n % 10 :: digitsRev (n / 10) := by
  by_cases h10 : n < 10
  · cases n with
    | zero => simp [digitsRev, digitsRevAux]
    | succ m => simp [digitsRev, digitsRevAux, h10]
  · cases n with
    | zero => omega
    | succ m =>
      have hlt : (m + 1) / 10 < m + 1 := Nat.div_lt_self (by omega) (by omega)
      simp only [digitsRev, digitsRevAux, if_neg h10]
      rw [digitsRevAux_congr ((m + 1) / 10) m ((m + 1) / 10) (by omega) (Nat.le_refl _)]

theorem undigitsRev_digitsRev (n : Nat) : undigitsRev (digitsRev n) = n := by
  induction n using Nat.strong_induction_on with
  | _ n ih =>
    rw [digitsRev_eq]
    by_cases h10 : n < 10
    · simp [if_pos h10, undigitsRev]
    · have hlt : n / 10 < n := Nat.div_lt_self (by omega) (by omega)
      rw [if_neg h10]
      simp only [undigitsRev]
      rw [ih (n / 10) hlt]
      omega

theorem digitsRev_lt_ten (n : Nat) : ∀ d ∈ digitsRev n, d < 10 := by
  induction n using Nat.strong_induction_on with
  | _ n ih =>
    rw [digitsRev_eq]
    by_cases h10 : n < 10
    · rw [if_pos h10]
      intro d hd
      have hdn : d = n := List.mem_singleton.mp hd
      omega
    · rw [if_neg h10]
      intro d hd
      rcases List.mem_cons.mp hd with h | h
      · have : n % 10 < 10 := Nat.mod_lt _ (by omega)
        omega
      · exact ih (n / 10) (Nat.div_lt_self (by omega) (by omega)) d h

theorem digitChar_inj : ∀ d₁, d₁ < 10 → ∀ d₂, d₂ < 10 →
    digitChar d₁ = digitChar d₂ → d₁ = d₂ := by decide

theorem map_digitChar_inj : ∀ l₁ l₂ : List Nat, (∀ d ∈ l₁, d < 10) → (∀ d ∈ l₂, d < 10) →
    l₁.map digitChar = l₂.map digitChar → l₁ = l₂
  | [], [], _, _, _ => rfl
  | [], _ :: _, _, _, h => by simp at h
  | _ :: _, [], _, _, h => by simp at h
  | a :: t₁, b :: t₂, h₁, h₂, h => by
    simp only [List.map_cons, List.cons.injEq] at h
    have hab := digitChar_inj a (h₁ a (List.mem_cons_self a t₁)) b (h₂ b (List.mem_cons_self b t₂)) h.1
    have ht := map_digitChar_inj t₁ t₂ (fun d hd => h₁ d (List.mem_cons_of_mem a hd))
      (fun d hd => h₂ d (List.mem_cons_of_mem b hd)) h.2
    rw [hab, ht]

theorem natRepr_inj {m n : Nat} (h : natRepr m = natRepr n) : m = n := by
  have hdata : (digitsRev m).reverse.map digitChar = (digitsRev n).reverse.map digitChar :=
    congrArg String.data h
  have hrev : (digitsRev m).reverse = (digitsRev n).reverse :=
    map_digitChar_inj _ _ (fun d hd => digitsRev_lt_ten m d (List.mem_reverse.mp hd))
      (fun d hd => digitsRev_lt_ten n d (List.mem_reverse.mp hd)) hdata
  have hds : digitsRev m = digitsRev n := List.reverse_injective hrev
  have hu := congrArg undigitsRev hds
  rwa [undigitsRev_digitsRev, undigitsRev_digitsRev] at hu

/-! ## String facts used for key disjointness -/

theorem append_right_inj {s t₁ t₂ : String} (h : s ++ t₁ = s ++ t₂) : t₁ = t₂ := by
  have hd := congrArg String.data h
  rw [String.data_append, String.data_append] at hd
  exact String.ext (List.append_cancel_left hd)

theorem data_getElem_append (a t : String) (i : Nat) (h : i < a.data.length) :
    (a ++ t).data[i]? = a.data[i]? := by
  rw [String.data_append, List.getElem?_append, if_pos h]

theorem string_ne_of_data_get {a b : String} (i : Nat)
    (h : a.data[i]? ≠ b.data[i]?) : a ≠ b :=
  fun he => h (by rw [he])

theorem user_posts_key_head (u : String) : (user_posts_key u).data[0]? = some 'u' := by
  have h := data_getElem_append "user_posts_" u 0 (by decide)
  unfold user_posts_key
  rw [h]
  decide

theorem post_detail_key_head (pk : Nat) : (post_detail_key pk).data[0]? = some 'p' := by
  have h := data_getElem_append "post_detail_" (natRepr pk) 0 (by decide)
  unfold post_detail_key
  rw [h]
  decide

theorem post_detail_key_get5 (pk : Nat) : (post_detail_key pk).data[5]? = some 'd' := by
  have h := data_getElem_append "post_detail_" (natRepr pk) 5 (by decide)
  unfold post_detail_key
  rw [h]
  decide

theorem cache_page_signal_key_head (pk : Nat) :
    (cache_page_signal_key pk).data[0]? = some 'p' := by
  have h := data_getElem_append "post_detail.views.decorators.cache.cache_page.."
    (natRepr pk ++ ".") 0 (by decide)
  unfold cache_page_signal_key
  rw [h]
  decide

theorem cache_page_generated_key_head (pfx method urlHash hdrHash : String) :
    (cache_page_generated_key pfx method urlHash hdrHash).data[0]? = some 'v' := by
  have h := data_getElem_append "views.decorators.cache.cache_page."
    (pfx ++ ("." ++ (method ++ ("." ++ (urlHash ++ ("." ++ hdrHash)))))) 0 (by decide)
  unfold cache_page_generated_key
  rw [h]
  decide

/-! ## Store and sweep lemmas -/

theorem store_get_set {α : Type} (st : Store α) (k : String) (v : α) (ttl : Nat) :
    Store.get (Store.set st k v ttl) k = some v := by
  simp [Store.set, Store.get]

theorem store_get_eraseKey_ne {α : Type} (st : Store α) (k key : String) (h : key ≠ k) :
    Store.get (Store.eraseKey st k) key = Store.get st key := by
  induction st with
  | nil => rfl
  | cons e rest ih =>
    obtain ⟨ek, ev, et⟩ := e
    by_cases hek : ek = k
    · subst hek
      simp only [Store.eraseKey, List.filter] at ih ⊢
      simp only [bne_self_eq_false]
      rw [Store.get, if_neg (fun hh => h hh.symm)]
      exact ih
    · simp only [Store.eraseKey, List.filter] at ih ⊢
      have hbne : (ek != k) = true := bne_iff_ne.mpr hek
      rw [hbne]
      by_cases heq : ek = key
      · subst heq
        simp [Store.get]
      · rw [Store.get, Store.get, if_neg heq, if_neg heq]
        exact ih

theorem sweep_loop_spec (sendOk : String → Bool) : ∀ l : List UserRec,
    sweep_loop sendOk l =
      (l.map UserRec.email, (l.filter (fun u => !sendOk u.email)).map UserRec.email) := by
  intro l
  induction l with
  | nil => rfl
  | cons u rest ih =>
    by_cases hs : sendOk u.email
    · simp [sweep_loop, ih, hs, List.filter_cons]
    · simp [sweep_loop, ih, hs, List.filter_cons]

/-! ## Claims -/

/-- C1 counterexample: at post id 1 with author alice the invalidation
step deletes four keys, not three — the hand-built cache_page-style
key is deleted in addition to the three keys the spec allows. -/
theorem C1_counterexample :
    (invalidation_keys "alice" 1).length = 4 ∧
    (spec_invalidationKeysFor "alice" 1).length = 3 ∧
    (invalidation_keys "alice" 1).contains (cache_page_signal_key 1) = true ∧
    (spec_invalidationKeysFor "alice" 1).contains (cache_page_signal_key 1) = false := by
  decide

/-- C1 amended: for every post-mutation event (author username u, post
id p) the invalidation step computes and deletes exactly four keys:
the global-list key, u's user-list key, p's detail key, and the
hand-built cache_page-style detail key — no more, no fewer. -/
theorem C1_amended_four_keys (username : String) (pk : Nat) :
    invalidation_keys username pk =
      spec_invalidationKeysFor username pk ++ [cache_page_signal_key pk] ∧
    (invalidation_keys username pk).length = 4 :=
  ⟨rfl, rfl⟩

/-- C2: at the failing input — a post-create request whose transaction
rolls back — the code has already enqueued post_notifying_email,
because the delay call in PostCreateView.form_valid precedes the save;
only the profile-creation path, which uses transaction.on_commit,
enqueues nothing on rollback. -/
theorem C2_rollback_enqueue :
    enqueued_tasks (post_create_form_valid_events .rollback) = ["post_notifying_email"] ∧
    (enqueued_tasks (post_create_form_valid_events .rollback)).length = 1 ∧
    enqueued_tasks (create_profile_events .rollback) = ([] : List String) ∧
    post_create_form_valid_events .rollback =
      [.enqueue "post_notifying_email", .dbWrite "post.save", .txEnd .rollback] :=
  ⟨rfl, rfl, rfl, rfl⟩

/-- C3 counterexample: with max_retries = 3 (the code's configuration)
and an always-failing operation, the operation is executed 4 times
before the terminal failure — not 3. -/
theorem C3_counterexample :
    post_notifying_email_run (fun _ => false) = (4, Final.FailedTerminal) := by
  decide

/-- C3 amended: for any always-failing operation, the task configured
with max_retries = 3 reaches FailedTerminal after exactly 4 executions
of the operation (the initial attempt plus 3 retries), and no 5th
execution occurs. -/
theorem C3_amended_four_attempts (op : Nat → Bool) (h : ∀ r, op r = false) :
    post_notifying_email_run op = (4, Final.FailedTerminal) := by
  simp [post_notifying_email_run, celery_run_from, h]

/-- C3 witness: the amended statement at the concrete always-failing
operation. -/
theorem C3_witness :
    post_notifying_email_run (fun _ => false) = (4, Final.FailedTerminal) :=
  C3_amended_four_attempts (fun _ => false) (fun _ => rfl)

/-- C4 counterexample: with 5 qualifying users of which the third's
send throws, the sweep processes all 5 and 4 sends succeed, but the
reported message counts 5 — the total, not the successes. -/
theorem C4_counterexample :
    (inactive_users sweepUsers).length = 5 ∧
    (send_blog_reminder sweepSendOk sweepUsers).attempted.length = 5 ∧
    (send_blog_reminder sweepSendOk sweepUsers).failed = ["e3"] ∧
    (send_blog_reminder sweepSendOk sweepUsers).attempted.length -
      (send_blog_reminder sweepSendOk sweepUsers).failed.length = 4 ∧
    (send_blog_reminder sweepSendOk sweepUsers).message =
      "Sent reminders to 5 inactive users" := by
  decide

/-- C4 amended: for every non-empty run of the sweep, the job
completes over all n qualifying entities and reports n — the total
count of qualifying entities regardless of per-entity failures — not
the success count n - k. -/
theorem C4_amended_reports_total (sendOk : String → Bool) (users : List UserRec)
    (h : (inactive_users users).length ≠ 0) :
    (send_blog_reminder sendOk users).message =
      "Sent reminders to " ++ (natRepr (inactive_users users).length ++ " inactive users") ∧
    (send_blog_reminder sendOk users).attempted = (inactive_users users).map UserRec.email := by
  simp only [send_blog_reminder, if_neg h, sweep_loop_spec]
  refine ⟨?_, ?_⟩ <;> trivial

/-- C4 witness: the amended statement at the concrete 5-user run. -/
theorem C4_witness :
    (send_blog_reminder sweepSendOk sweepUsers).message =
      "Sent reminders to " ++ (natRepr (inactive_users sweepUsers).length ++ " inactive users") ∧
    (send_blog_reminder sweepSendOk sweepUsers).attempted =
      (inactive_users sweepUsers).map UserRec.email :=
  C4_amended_reports_total sweepSendOk sweepUsers (by decide)

/-- C7 counterexample: a User.DoesNotExist exception at attempt count 0
with max_retries 3 takes the task directly to the terminal failed
state even though retry budget remains. -/
theorem C7_counterexample :
    process_profile_image_outcome (some ImgExc.userDoesNotExist) 0 3 =
      TaskOutcome.FailedTerminal ∧ 0 < 3 := by
  decide

/-- C7 amended: while attempt_count < max_attempts, every exception
other than User.DoesNotExist transitions the task to Retrying;
User.DoesNotExist is re-raised and fails the task immediately,
regardless of remaining budget. -/
theorem C7_amended_retry_non_doesnotexist (msg : String) (r maxRetries : Nat)
    (h : r < maxRetries) :
    process_profile_image_outcome (some (ImgExc.other msg)) r maxRetries =
      TaskOutcome.Retrying ∧
    process_profile_image_outcome (some ImgExc.userDoesNotExist) r maxRetries =
      TaskOutcome.FailedTerminal := by
  constructor
  · simp [process_profile_image_outcome, h]
  · rfl

/-- C7 witness: the amended statement at a concrete generic exception
and a fresh attempt count. -/
theorem C7_witness :
    process_profile_image_outcome (some (ImgExc.other "transport down")) 0 3 =
      TaskOutcome.Retrying ∧
    process_profile_image_outcome (some ImgExc.userDoesNotExist) 0 3 =
      TaskOutcome.FailedTerminal :=
  C7_amended_retry_non_doesnotexist "transport down" 0 3 (by decide)

/-- C9: keyFor is injective over the three identity scopes — identical
identities give identical key strings (it is a function) and distinct
identities never collide. -/
theorem C9_keyFor_injective : ∀ i j : Identity, keyFor i = keyFor j → i = j := by
  intro i j h
  cases i with
  | globalList =>
    cases j with
    | globalList => rfl
    | userList u =>
      exact absurd h (string_ne_of_data_get 0 (by simp only [keyFor]; rw [user_posts_key_head u]; decide))
    | detail pk =>
      exact absurd h (string_ne_of_data_get 5 (by simp only [keyFor]; rw [post_detail_key_get5 pk]; decide))
  | userList u₁ =>
    cases j with
    | globalList =>
      exact absurd h.symm (string_ne_of_data_get 0 (by simp only [keyFor]; rw [user_posts_key_head u₁]; decide))
    | userList u₂ =>
      have hu : u₁ = u₂ := append_right_inj h
      rw [hu]
    | detail pk =>
      exact absurd h (string_ne_of_data_get 0
        (by simp only [keyFor]; rw [user_posts_key_head u₁, post_detail_key_head pk]; decide))
  | detail pk₁ =>
    cases j with
    | globalList =>
      exact absurd h.symm (string_ne_of_data_get 5 (by simp only [keyFor]; rw [post_detail_key_get5 pk₁]; decide))
    | userList u =>
      exact absurd h.symm (string_ne_of_data_get 0
        (by simp only [keyFor]; rw [user_posts_key_head u, post_detail_key_head pk₁]; decide))
    | detail pk₂ =>
      have hp : natRepr pk₁ = natRepr pk₂ := append_right_inj h
      rw [natRepr_inj hp]

/-- C9 witness: the injectivity applied at a concrete identity pair. -/
theorem C9_witness : Identity.detail 1 = Identity.detail 1 :=
  C9_keyFor_injective (Identity.detail 1) (Identity.detail 1) rfl

/-- C6: read-through semantics of both cached list views. A hit
returns the stored value unmodified with no compute and no write; a
miss computes once, performs exactly one store write with the view's
TTL, returns the computed value, and the immediately following call is
a hit returning that value — including when the computed collection is
empty (no negative caching). -/
theorem C6_read_through (db : List PostRec) (username : String) (st : BlogStore) :
    (∀ v, Store.get st post_list_key = some v →
      PostListView_get_queryset db st = ⟨v, st, 0, 0⟩) ∧
    (Store.get st post_list_key = none →
      PostListView_get_queryset db st =
        ⟨CacheVal.posts (order_by_date_desc db),
         Store.set st post_list_key (CacheVal.posts (order_by_date_desc db)) 3600, 1, 1⟩ ∧
      PostListView_get_queryset db (PostListView_get_queryset db st).store =
        ⟨CacheVal.posts (order_by_date_desc db),
         (PostListView_get_queryset db st).store, 0, 0⟩) ∧
    (∀ v, Store.get st (user_posts_key username) = some v →
      SameUserPostListView_get_queryset db username st = ⟨v, st, 0, 0⟩) ∧
    (Store.get st (user_posts_key username) = none →
      SameUserPostListView_get_queryset db username st =
        ⟨CacheVal.posts (order_by_date_desc (db.filter (fun p => p.author == username))),
         Store.set st (user_posts_key username)
           (CacheVal.posts (order_by_date_desc (db.filter (fun p => p.author == username))))
           (60 * 30), 1, 1⟩ ∧
      SameUserPostListView_get_queryset db username
          (SameUserPostListView_get_queryset db username st).store =
        ⟨CacheVal.posts (order_by_date_desc (db.filter (fun p => p.author == username))),
         (SameUserPostListView_get_queryset db username st).store, 0, 0⟩) := by
  refine ⟨?_, ?_, ?_, ?_⟩
  · intro v hv
    simp [PostListView_get_queryset, hv]
  · intro hn
    have h1 : PostListView_get_queryset db st =
        ⟨CacheVal.posts (order_by_date_desc db),
         Store.set st post_list_key (CacheVal.posts (order_by_date_desc db)) 3600, 1, 1⟩ := by
      simp [PostListView_get_queryset, hn]
    refine ⟨h1, ?_⟩
    rw [h1]
    simp [PostListView_get_queryset, store_get_set]
  · intro v hv
    simp [SameUserPostListView_get_queryset, hv]
  · intro hn
    have h1 : SameUserPostListView_get_queryset db username st =
        ⟨CacheVal.posts (order_by_date_desc (db.filter (fun p => p.author == username))),
         Store.set st (user_posts_key username)
           (CacheVal.posts (order_by_date_desc (db.filter (fun p => p.author == username))))
           (60 * 30), 1, 1⟩ := by
      simp [SameUserPostListView_get_queryset, hn]
    refine ⟨h1, ?_⟩
    rw [h1]
    simp [SameUserPostListView_get_queryset, store_get_set]

/-- C6 witness: the miss branch on an empty database and empty store —
the empty post list is computed once, written once, and the next call
returns it as a hit without recomputing. -/
theorem C6_witness :
    PostListView_get_queryset [] [] =
      ⟨CacheVal.posts (order_by_date_desc []),
       Store.set [] post_list_key (CacheVal.posts (order_by_date_desc [])) 3600, 1, 1⟩ ∧
    PostListView_get_queryset [] (PostListView_get_queryset [] []).store =
      ⟨CacheVal.posts (order_by_date_desc []),
       (PostListView_get_queryset [] []).store, 0, 0⟩ :=
  (C6_read_through [] "alice" []).2.1 rfl

/-- C8: the sweep attempts the side effect for every qualifying entity
in order — a failing send is recorded and does not abort the batch —
and the recorded failures are exactly the entities whose send
failed. -/
theorem C8_batch_isolation (sendOk : String → Bool) (users : List UserRec) :
    (send_blog_reminder sendOk users).attempted = (inactive_users users).map UserRec.email ∧
    (send_blog_reminder sendOk users).failed =
      ((inactive_users users).filter (fun u => !sendOk u.email)).map UserRec.email := by
  by_cases h : (inactive_users users).length = 0
  · have he : inactive_users users = [] := List.length_eq_zero.mp h
    rw [send_blog_reminder]
    rw [if_pos h, he]
    exact ⟨rfl, rfl⟩
  · simp only [send_blog_reminder, if_neg h, sweep_loop_spec]
    refine ⟨?_, ?_⟩ <;> trivial

/-- C10: the write-invalidation receivers return normally for every
delete behavior: any exception from the store is caught and logged
(shown for the always-raising backend), and with the healthy backend a
delete of absent keys is a no-op reporting nothing removed, not an
error. -/
theorem C10_trigger_no_propagation (del : DeleteOp CacheVal) (username : String)
    (pk : Nat) (st : BlogStore) :
    (∃ out, post_saved del username pk st = .ok out) ∧
    (∃ out, post_deleted del username pk st = .ok out) ∧
    post_saved failingDelete username pk st =
      .ok (st, [LogEntry.exception "store unreachable"]) ∧
    invalidate_post_cache (normalDelete : DeleteOp CacheVal) username pk [] =
      .ok ([], []) := by
  refine ⟨?_, ?_, ?_, ?_⟩
  · unfold post_saved
    match hinv : invalidate_post_cache del username pk st with
    | .ok (rs, st') => exact ⟨(st', [.info "cache invalidated"]), rfl⟩
    | .error e => exact ⟨(st, [.exception e]), rfl⟩
  · unfold post_deleted
    match hinv : invalidate_post_cache del username pk st with
    | .ok (rs, st') => exact ⟨(st', [.info "cache invalidated"]), rfl⟩
    | .error e => exact ⟨(st, [.exception e]), rfl⟩
  · rfl
  · rfl

/-- C5: the detail page is read through cache_page's generated key,
which is never among the keys the invalidation deletes (whatever the
request hashes are); concretely, after caching post 1's detail page
and running the post_saved invalidation for it, the next detail read
is still a hit serving the pre-mutation page with no recompute, while
the next global-list read does recompute. -/
theorem C5_stale_detail_after_invalidation (username : String) (pk : Nat)
    (urlHash hdrHash : String) :
    ((invalidation_keys username pk).all
      (fun k => k != cache_page_generated_key "post_detail" "GET" urlHash hdrHash)) = true ∧
    (PostDetailView_dispatch render_stub 1 "aaa" "bbb"
        (storeAfter (post_saved normalDelete "alice" 1
          (PostDetailView_dispatch render_stub 1 "aaa" "bbb" []).store) [])).computeCount = 0 ∧
    (PostDetailView_dispatch render_stub 1 "aaa" "bbb"
        (storeAfter (post_saved normalDelete "alice" 1
          (PostDetailView_dispatch render_stub 1 "aaa" "bbb" []).store) [])).value =
      CacheVal.page (render_stub 1) ∧
    (PostListView_get_queryset []
        (storeAfter (post_saved normalDelete "alice" 1
          (PostDetailView_dispatch render_stub 1 "aaa" "bbb" []).store) [])).computeCount = 1 := by
  refine ⟨?_, by decide, by decide, by decide⟩
  have hg := cache_page_generated_key_head "post_detail" "GET" urlHash hdrHash
  have h1 : post_list_key ≠ cache_page_generated_key "post_detail" "GET" urlHash hdrHash :=
    string_ne_of_data_get 0 (by rw [hg]; decide)
  have h2 : user_posts_key username ≠
      cache_page_generated_key "post_detail" "GET" urlHash hdrHash :=
    string_ne_of_data_get 0 (by rw [hg, user_posts_key_head]; decide)
  have h3 : post_detail_key pk ≠
      cache_page_generated_key "post_detail" "GET" urlHash hdrHash :=
    string_ne_of_data_get 0 (by rw [hg, post_detail_key_head]; decide)
  have h4 : cache_page_signal_key pk ≠
      cache_page_generated_key "post_detail" "GET" urlHash hdrHash :=
    string_ne_of_data_get 0 (by rw [hg, cache_page_signal_key_head]; decide)
  simp [invalidation_keys, List.all_cons, bne_iff_ne, h1, h2, h3, h4]

end DjangoBlog
